import Mathlib

/-!
Verification of the AI Recruiter Agent conversation engine.

This file is a shallow embedding, in Lean, of the Python sources
`data_model.py`, `services.py`, `llm_chain.py` and `graph.py` of the
repository.  Pure business logic (keyword matching, candidate
evaluation, intent classification, graph routing) is translated
function-for-function.  Python floats are modelled as rationals,
Python dicts as insertion-ordered association lists, and the
free-text generation performed by the external language model is
modelled as an oracle (`LLMService` below): the engine never inspects
generated text for routing, so every theorem quantifies over the
oracle.  Exceptions are modelled with `Except`: an `Except.error`
result of a graph run corresponds to a Python exception propagating
to the `try/except` in `RecruiterAgent.process_message`.
-/

namespace Recruiter

/-- Python `needle in hay` substring test on strings. -/
def strContains (hay needle : String) : Bool :=
  decide (needle.toList <:+: hay.toList)

/-- Python `s.lower()`: lowercase every character (identical to
`String.toLower`, written directly over the character list). -/
def strLower (s : String) : String := ⟨s.data.map Char.toLower⟩

/-- Python `d[k] = v` on an insertion-ordered dict modelled as an
association list: overwrite in place when the key is present,
append otherwise. -/
def dictSet (d : List (String × String)) (k v : String) :
    List (String × String) :=
  if d.any (fun p => p.1 == k) then
    d.map (fun p => if p.1 == k then (k, v) else p)
  else
    d ++ [(k, v)]

/-- Model of `data_model.KillerQuestion` (the `weight` float becomes a rational). -/
structure KillerQuestion where
  question_id : String
  question : String
  expected_keywords : List String
  weight : ℚ
  required : Bool
deriving DecidableEq

/-- Model of `data_model.EvaluationResult`. -/
structure EvaluationResult where
  overall_score : ℚ
  suitability : String
  killer_questions_answered : ℕ
  killer_questions_total : ℕ
  strengths : List String
  concerns : List String
  recommendation : String
deriving DecidableEq

/-- Model of `data_model.CandidateProfile`. -/
structure CandidateProfile where
  candidate_id : String
  name : Option String
  current_role : Option String
  years_of_experience : Option ℕ
  skills : List String
  location : Option String
  linkedin_profile : Option String
  platform : String
deriving DecidableEq

/-- Model of `data_model.CompanyInfo`. -/
structure CompanyInfo where
  company_name : String
  mission : String
  culture : String
  benefits : List String
  size : String
  industry : String
  website : String
deriving DecidableEq

/-- Model of `data_model.JobOffer`. -/
structure JobOffer where
  job_id : String
  title : String
  description : String
  requirements : List String
  nice_to_have : List String
  salary_range : String
  location : String
  remote_policy : String
  team_size : ℕ
deriving DecidableEq

/-- Model of `data_model.ConversationMessage` (the wall-clock timestamp is not
modelled; no routing or scoring decision reads it). -/
structure ConversationMessage where
  sender : String
  content : String
  platform : String
deriving DecidableEq

/-- Model of `data_model.AgentState`, the LangGraph session state.  The
free-form `metadata` dict is not modelled; no code in `graph.py`,
`services.py` or `llm_chain.py` reads or writes it. -/
structure AgentState where
  session_id : String
  current_node : String
  messages : List ConversationMessage
  last_message : String
  agent_response : String
  candidate : Option CandidateProfile
  company_info : Option CompanyInfo
  job_offer : Option JobOffer
  intent : Option String
  conversation_stage : String
  killer_questions : List KillerQuestion
  killer_questions_asked : List String
  killer_answers : List (String × String)
  evaluation : Option EvaluationResult
  conversation_ended : Bool
  needs_human_intervention : Bool
deriving DecidableEq

/-! ## services.py — EvaluationService -/

/-- Number of expected keywords of `q` found (case-insensitively) in an
already-lowercased answer: `sum(1 for keyword in question.expected_keywords
if keyword.lower() in answer)`. -/
def keywordMatches (q : KillerQuestion) (answer : String) : ℕ :=
  q.expected_keywords.countP (fun k => strContains answer (strLower k))

/-- Contribution of one question to `total_score` in
`EvaluationService.evaluate_candidate`: 0 when the question is
unanswered or no keyword matches, otherwise
`match_ratio * weight * 100`. -/
def questionScore (killer_answers : List (String × String))
    (q : KillerQuestion) : ℚ :=
  match List.lookup q.question_id killer_answers with
  | none => 0
  | some raw =>
    let answer := strLower raw
    let m := keywordMatches q answer
    if 0 < m then
      ((m : ℚ) / (q.expected_keywords.length : ℚ)) * q.weight * 100
    else 0

/-- Strength entries appended for one question by the evaluation loop. -/
def questionStrengths (killer_answers : List (String × String))
    (q : KillerQuestion) : List String :=
  match List.lookup q.question_id killer_answers with
  | none => []
  | some raw =>
    let m := keywordMatches q (strLower raw)
    if 0 < m then
      if 1/2 < (m : ℚ) / (q.expected_keywords.length : ℚ) then
        ["Strong answer to: " ++ q.question_id]
      else []
    else []

/-- Concern entries appended for one question by the evaluation loop. -/
def questionConcerns (killer_answers : List (String × String))
    (q : KillerQuestion) : List String :=
  match List.lookup q.question_id killer_answers with
  | none =>
    if q.required then
      ["Did not answer required question: " ++ q.question_id]
    else []
  | some raw =>
    if 0 < keywordMatches q (strLower raw) then []
    else if q.required then
      ["Weak answer to required question: " ++ q.question_id]
    else []

/-- The `max_score` accumulated by the evaluation loop: `Σ weight * 100`. -/
def max_score (qs : List KillerQuestion) : ℚ :=
  (qs.map (fun q => q.weight * 100)).sum

/-- The `total_score` accumulated by the evaluation loop. -/
def total_score (qs : List KillerQuestion)
    (killer_answers : List (String × String)) : ℚ :=
  (qs.map (questionScore killer_answers)).sum

/-- The (pre-rounding) overall percentage:
`total_score / max_score * 100 if max_score > 0 else 0.0`. -/
def overallRaw (qs : List KillerQuestion)
    (killer_answers : List (String × String)) : ℚ :=
  if 0 < max_score qs then total_score qs killer_answers / max_score qs * 100
  else 0

/-- Python `round(x, 2)` modelled as rounding to the nearest
hundredth. -/
def round2 (x : ℚ) : ℚ := ((round (x * 100) : ℤ) : ℚ) / 100

/-- Model of `EvaluationService.evaluate_candidate` (services.py lines 224-301).
Concerns appear in question order, followed by the completion concern;
strengths appear in question order. -/
def evaluate_candidate (killer_questions : List KillerQuestion)
    (killer_answers : List (String × String)) : EvaluationResult :=
  let answered_count := killer_answers.length
  let total_questions := killer_questions.length
  let overall := overallRaw killer_questions killer_answers
  { overall_score := round2 overall
    suitability :=
      if 70 ≤ overall then "high" else if 40 ≤ overall then "medium"
      else "low"
    killer_questions_answered := answered_count
    killer_questions_total := total_questions
    strengths := (killer_questions.map (questionStrengths killer_answers)).flatten
    concerns := (killer_questions.map (questionConcerns killer_answers)).flatten
      ++ (if answered_count < total_questions then
            ["Answered " ++ toString answered_count ++ "/" ++
              toString total_questions ++ " questions"]
          else [])
    recommendation :=
      if 70 ≤ overall then
        "Strong candidate. Recommend advancing to technical interview."
      else if 40 ≤ overall then
        "Potential candidate. Consider for phone screen to clarify concerns."
      else "Not a strong match for this role at this time." }

/-! ## services.py — IntentClassificationService -/

/-- Model of `IntentClassificationService.INTENT_KEYWORDS`, in declaration
order. -/
def INTENT_KEYWORDS : List (String × List String) :=
  [ ("ask_company", ["company", "culture", "mission", "values", "benefits", "perks"]),
    ("ask_job", ["job", "role", "position", "responsibilities", "requirements", "salary"]),
    ("ask_team", ["team", "colleagues", "manager", "working with"]),
    ("ask_location", ["location", "remote", "office", "where", "timezone"]),
    ("provide_info", ["i am", "i have", "i work", "my experience", "i\x27ve been"]),
    ("answer_question", ["yes", "no", "sure", "absolutely", "correct"]),
    ("end_conversation", ["goodbye", "bye", "thank you", "thanks", "not interested"]) ]

/-- Model of `IntentClassificationService.classify_intent`: score each category
by its number of keywords occurring in the lowercased message, keep the
positive scores (in declaration order, as the Python dict does), and
take `max(intent_scores, key=intent_scores.get)` — the first entry with
the maximal score; no positive score yields `general_inquiry`. -/
def classify_intent (message : String) : String :=
  let message_lower := strLower message
  let intent_scores :=
    (INTENT_KEYWORDS.map (fun p =>
      (p.1, p.2.countP (fun k => strContains message_lower k)))).filter
      (fun p => 0 < p.2)
  match intent_scores with
  | [] => "general_inquiry"
  | x :: xs => (xs.foldl (fun b y => if b.2 < y.2 then y else b) x).1

/-- Modelled from the spec, for comparison with `classify_intent` (the
corrected reading): the classifier returns the earliest-declared
category achieving the maximum keyword-match count among categories
with at least one match, and `general_inquiry` when no keyword of any
category matches. -/
def classifyIntentSpec (message : String) : String :=
  let message_lower := strLower message
  let scored :=
    (INTENT_KEYWORDS.map (fun p =>
      (p.1, p.2.countP (fun k => strContains message_lower k)))).filter
      (fun p => 0 < p.2)
  match scored.find? (fun p => scored.all (fun q => q.2 ≤ p.2)) with
  | some p => p.1
  | none => "general_inquiry"

/-! ## llm_chain.py — LLMService

Free-text generation is nondeterministic (an external language model
with deterministic fallbacks); the engine never inspects the generated
text, so the generating methods are modelled as an oracle.  The
methods of `llm_chain.py` that are deterministic Python with no
routing-relevant output (`extract_candidate_info`) are part of the
oracle as well: their output only feeds the candidate profile, which
no routing or scoring decision reads.  `generate_evaluation_summary`
is fully deterministic source code and is embedded below. -/

/-- Result shape of `LLMService.extract_candidate_info`. -/
structure ExtractedInfo where
  years_of_experience : Option ℕ
  skills : List String
deriving DecidableEq

/-- Oracle for the text-generating methods of `llm_chain.LLMService`.
Each function is total: those methods catch their own LLM errors and
fall back to fixed strings, so they return normally. -/
structure LLMService where
  generate_greeting : AgentState → String
  generate_response : AgentState → Option String → String
  generate_killer_question : AgentState → KillerQuestion → String
  extract_candidate_info : String → ExtractedInfo

/-- Exceptions that can escape a graph run and reach the
`try/except` in `RecruiterAgent.process_message`:
`attributeError` models a field access on `None`
(company/job context missing in `generate_company_response` /
`generate_job_response`), and `recursionLimit` models LangGraph's
`GraphRecursionError` when a run exceeds the recursion limit. -/
inductive GraphError where
  | attributeError
  | recursionLimit
deriving DecidableEq

instance {ε α : Type} [DecidableEq ε] [DecidableEq α] :
    DecidableEq (Except ε α) := fun a b =>
  match a, b with
  | .ok x, .ok y =>
    if h : x = y then .isTrue (by rw [h]) else .isFalse (by simp [h])
  | .error e, .error f =>
    if h : e = f then .isTrue (by rw [h]) else .isFalse (by simp [h])
  | .ok _, .error _ => .isFalse (by simp)
  | .error _, .ok _ => .isFalse (by simp)

/-- The context block built by `LLMService.generate_company_response`
from a `CompanyInfo`. -/
def companyContext (c : CompanyInfo) : String :=
  "\nCompany Information:\n- Name: " ++ c.company_name ++
  "\n- Mission: " ++ c.mission ++ "\n- Culture: " ++ c.culture ++
  "\n- Industry: " ++ c.industry ++ "\n- Size: " ++ c.size ++
  "\n- Benefits: " ++ String.intercalate ", " (c.benefits.take 5) ++
  "\n\nUse this information to answer the candidate\x27s question about the company.\nBe enthusiastic but authentic. Keep response to 3-4 sentences."

/-- The context block built by `LLMService.generate_job_response` from
a `JobOffer`. -/
def jobContext (j : JobOffer) : String :=
  "\nJob Information:\n- Title: " ++ j.title ++
  "\n- Description: " ++ j.description ++ "\n- Location: " ++ j.location ++
  "\n- Remote Policy: " ++ j.remote_policy ++
  "\n- Salary Range: " ++ j.salary_range ++
  "\n- Key Requirements: " ++ String.intercalate ", " (j.requirements.take 3) ++
  "\n- Team Size: " ++ toString j.team_size ++
  "\n\nUse this information to answer the candidate\x27s question about the role.\nBe clear and helpful. Keep response to 3-4 sentences."

/-- Model of `LLMService.generate_company_response`: builds a context string
from the company fields — an `AttributeError` when the company info is
`None` — then delegates to `generate_response`. -/
def generate_company_response (llm : LLMService) (st : AgentState)
    (ci : Option CompanyInfo) : Except GraphError String :=
  match ci with
  | none => .error .attributeError
  | some c => .ok (llm.generate_response st (some (companyContext c)))

/-- Model of `LLMService.generate_job_response`; `AttributeError` on a `None`
job offer. -/
def generate_job_response (llm : LLMService) (st : AgentState)
    (jo : Option JobOffer) : Except GraphError String :=
  match jo with
  | none => .error .attributeError
  | some j => .ok (llm.generate_response st (some (jobContext j)))

/-- Model of `LLMService.generate_evaluation_summary` (llm_chain.py lines
311-351): a deterministic closing message chosen from the stored
evaluation. -/
def generate_evaluation_summary (st : AgentState) : String :=
  match st.evaluation with
  | none =>
    "Thank you for your time today! We\x27ll be in touch soon with next steps."
  | some e =>
    if e.suitability = "high" then
      "Thank you so much for taking the time to chat with me today! Based on our conversation, I think you\x27d be a great fit for this role. Our team will review your profile and reach out within 2-3 business days to schedule the next interview. Looking forward to continuing the conversation!"
    else if e.suitability = "medium" then
      "Thank you for the conversation today! I\x27d like to have a member of our recruiting team do a quick follow-up call to discuss your background in more detail. Someone will reach out to you within the next week. Thanks again!"
    else
      "Thank you for your interest and for taking the time to speak with me today. While this particular role might not be the perfect fit right now, we\x27ll keep your information on file for future opportunities. Best of luck in your job search!"

/-! ## graph.py — RecruiterAgent -/

/-- The per-conversation data a `RecruiterAgent` loads at
construction: company info, job offer and killer questions from
`DataService` (each possibly absent for an unknown id), plus its
`LLMService`. -/
structure RecruiterAgent where
  company_info : Option CompanyInfo
  job_offer : Option JobOffer
  killer_questions : List KillerQuestion
  llm : LLMService

/-- Platform used when the agent appends one of its own messages:
`state.candidate.platform if state.candidate else "linkedin"`. -/
def platformOf (st : AgentState) : String :=
  match st.candidate with
  | some c => c.platform
  | none => "linkedin"

/-- Append an agent-sent `ConversationMessage` to the history. -/
def appendAgentMessage (st : AgentState) (content : String) : AgentState :=
  { st with messages :=
      st.messages ++ [{ sender := "agent", content := content,
                        platform := platformOf st }] }

/-- Model of `RecruiterAgent._receive_message_node`. -/
def receive_message_node (A : RecruiterAgent) (st : AgentState) :
    AgentState :=
  let st := if st.company_info = none then
      { st with company_info := A.company_info } else st
  let st := if st.job_offer = none then
      { st with job_offer := A.job_offer } else st
  let st := if st.killer_questions = [] then
      { st with killer_questions := A.killer_questions } else st
  let st :=
    if st.conversation_stage = "greeting" ∧ st.messages = [] then
      let greeting := A.llm.generate_greeting st
      appendAgentMessage
        { st with agent_response := greeting,
                  conversation_stage := "information_gathering" } greeting
    else st
  { st with current_node := "recepcion_mensaje" }

/-- The fixed context string of `RecruiterAgent._gather_data_node`. -/
def gatherContext : String :=
  "The candidate is providing information about themselves.\nAcknowledge what they shared and ask a relevant follow-up question to learn more\nabout their experience or skills."

/-- Model of `RecruiterAgent._analyze_intent_node`. -/
def analyze_intent_node (A : RecruiterAgent) (st : AgentState) :
    AgentState :=
  let intent := classify_intent st.last_message
  let st := { st with intent := some intent }
  let extracted := A.llm.extract_candidate_info st.last_message
  let st :=
    match st.candidate with
    | some cand =>
      if extracted.years_of_experience.isSome ∨ extracted.skills ≠ [] then
        let cand :=
          match extracted.years_of_experience with
          | some y => { cand with years_of_experience := some y }
          | none => cand
        let cand :=
          if extracted.skills ≠ [] then
            -- `list(set(...))` deduplicates with unspecified order;
            -- modelled as order-preserving deduplication.
            { cand with skills := (cand.skills ++ extracted.skills).dedup }
          else cand
        { st with candidate := some cand }
      else st
    | none => st
  { st with current_node := "analisis_intencion" }

/-- Model of `RecruiterAgent._gather_data_node`. -/
def gather_data_node (A : RecruiterAgent) (st : AgentState) : AgentState :=
  let response := A.llm.generate_response st (some gatherContext)
  let st := appendAgentMessage { st with agent_response := response } response
  { st with current_node := "obtencion_datos" }

/-- The list comprehension
`[q for q in state.killer_questions if q.question_id not in
state.killer_questions_asked]`, computed both by
`_killer_questions_node` and `_route_after_intent`. -/
def unansweredQuestions (st : AgentState) : List KillerQuestion :=
  st.killer_questions.filter
    (fun q => !(st.killer_questions_asked.contains q.question_id))

/-- Model of `RecruiterAgent._killer_questions_node` (graph.py lines 220-266):
ask the first not-yet-asked question, marking it asked immediately;
when none remain, store the inbound message as the answer to the last
asked question. -/
def killer_questions_node (A : RecruiterAgent) (st : AgentState) :
    AgentState :=
  match unansweredQuestions st with
  | next :: _ =>
    let question_text := A.llm.generate_killer_question st next
    let st :=
      { st with agent_response := question_text,
                killer_questions_asked :=
                  st.killer_questions_asked ++ [next.question_id],
                conversation_stage := "killer_questions" }
    let st := appendAgentMessage st question_text
    { st with current_node := "killer_questions" }
  | [] =>
    let st :=
      match st.killer_questions_asked.getLast? with
      | some last_question_id =>
        { st with killer_answers :=
            dictSet st.killer_answers last_question_id st.last_message }
      | none => st
    { st with current_node := "killer_questions" }

/-- Model of `RecruiterAgent._company_response_node`.  Fails with
`AttributeError` when the needed context object is `None`. -/
def company_response_node (A : RecruiterAgent) (st : AgentState) :
    Except GraphError AgentState :=
  let responseE : Except GraphError String :=
    if st.intent = some "ask_company" ∨ st.intent = some "ask_team" then
      generate_company_response A.llm st st.company_info
    else if st.intent = some "ask_job" ∨ st.intent = some "ask_location" then
      generate_job_response A.llm st st.job_offer
    else .ok (A.llm.generate_response st none)
  match responseE with
  | .error e => .error e
  | .ok response =>
    let st := appendAgentMessage
      { st with agent_response := response,
                conversation_stage := "company_questions" } response
    .ok { st with current_node := "respuestas_compania" }

/-- Model of `RecruiterAgent._final_evaluation_node` (graph.py lines 308-340):
store the pending answer if still in the killer-questions stage, then
run the evaluation service. -/
def final_evaluation_node (st : AgentState) : AgentState :=
  let st :=
    if st.conversation_stage = "killer_questions" then
      match st.killer_questions_asked.getLast? with
      | some last_question_id =>
        if List.lookup last_question_id st.killer_answers = none then
          { st with killer_answers :=
              dictSet st.killer_answers last_question_id st.last_message }
        else st
      | none => st
    else st
  let evaluation := evaluate_candidate st.killer_questions st.killer_answers
  { st with evaluation := some evaluation,
            conversation_stage := "evaluation",
            current_node := "evaluacion_final" }

/-- Model of `RecruiterAgent._finalize_chat_node`. -/
def finalize_chat_node (st : AgentState) : AgentState :=
  let closing_message := generate_evaluation_summary st
  let st := appendAgentMessage
    { st with agent_response := closing_message,
              conversation_ended := true,
              conversation_stage := "closing" } closing_message
  { st with current_node := "finalizar_chat" }

/-- Model of `RecruiterAgent._route_after_reception`. -/
def route_after_reception (st : AgentState) : String :=
  if st.conversation_ended then "finalizar"
  else if st.conversation_stage = "information_gathering" ∧
      st.messages.length = 1 then "finalizar"
  else "analisis_intencion"

/-- The guarded answer-recording step of `_route_after_intent`
(graph.py lines 424-428): when in the killer-questions stage with a
nonempty inbound message, record it as the answer to the most recently
asked question unless that question already has one
(`if last_q_id not in state.killer_answers`). -/
def storePendingAnswer (st : AgentState) : AgentState :=
  match st.killer_questions_asked.getLast? with
  | some last_q_id =>
    if st.last_message ≠ "" then
      if List.lookup last_q_id st.killer_answers = none then
        { st with killer_answers :=
            dictSet st.killer_answers last_q_id st.last_message }
      else st
    else st
  | none => st

/-- Model of `RecruiterAgent._route_after_intent` (graph.py lines 396-453).
The Python router mutates the state (it records the pending
killer-question answer), so the model returns the updated state
together with the routing decision. -/
def route_after_intent (st : AgentState) : AgentState × String :=
  if st.intent = some "end_conversation" then
    if st.killer_answers ≠ [] then (st, "evaluacion_final")
    else (st, "finalizar")
  else if st.conversation_stage = "killer_questions" then
    let st := storePendingAnswer st
    let remaining := unansweredQuestions st
    if remaining ≠ [] then (st, "killer_questions")
    else (st, "evaluacion_final")
  else if st.intent = some "ask_company" ∨ st.intent = some "ask_job" ∨
      st.intent = some "ask_team" ∨ st.intent = some "ask_location" then
    (st, "respuestas_compania")
  else if st.intent = some "provide_info" then
    (st, "obtencion_datos")
  else if 4 ≤ st.messages.length ∧ st.killer_questions_asked = [] then
    (st, "killer_questions")
  else (st, "obtencion_datos")

/-- Model of `RecruiterAgent._route_after_killer_question`. -/
def route_after_killer_question (st : AgentState) : String :=
  if st.killer_questions.all
      (fun q => st.killer_questions_asked.contains q.question_id) then
    "evaluate"
  else "continue_questions"

/-- Node labels of the compiled LangGraph. -/
inductive GNode where
  | recepcion | analisis | datos | killer | compania | evalfinal | finalizar
deriving DecidableEq

/-- One full `app.invoke(state)` of the compiled graph built by
`RecruiterAgent._build_graph`, starting at an arbitrary node: execute
the node, follow its (conditional) edge, and stop at `END`.  `fuel`
bounds the number of executed nodes, mirroring LangGraph's recursion
limit: running out of fuel is the `GraphRecursionError`. -/
def runFrom (A : RecruiterAgent) :
    ℕ → GNode → AgentState → Except GraphError AgentState
  | 0, _, _ => .error .recursionLimit
  | fuel + 1, n, st =>
    match n with
    | .recepcion =>
      let st := receive_message_node A st
      if route_after_reception st = "finalizar" then .ok st
      else runFrom A fuel .analisis st
    | .analisis =>
      let st := analyze_intent_node A st
      let r := route_after_intent st
      if r.2 = "killer_questions" then runFrom A fuel .killer r.1
      else if r.2 = "respuestas_compania" then runFrom A fuel .compania r.1
      else if r.2 = "obtencion_datos" then runFrom A fuel .datos r.1
      else if r.2 = "evaluacion_final" then runFrom A fuel .evalfinal r.1
      else runFrom A fuel .finalizar r.1
    | .datos => runFrom A fuel .analisis (gather_data_node A st)
    | .compania =>
      match company_response_node A st with
      | .error e => .error e
      | .ok st => runFrom A fuel .analisis st
    | .killer =>
      let st := killer_questions_node A st
      if route_after_killer_question st = "evaluate" then
        runFrom A fuel .evalfinal st
      else runFrom A fuel .analisis st
    | .evalfinal => runFrom A fuel .finalizar (final_evaluation_node st)
    | .finalizar => .ok (finalize_chat_node st)

/-- LangGraph's default recursion limit. -/
def recursionLimit : ℕ := 25

/-- The fixed apology returned by the exception handler in
`RecruiterAgent.process_message`. -/
def apologyMessage : String :=
  "I apologize, but I\x27m having some technical difficulties. A human recruiter will reach out to you shortly."

/-- Model of `RecruiterAgent.process_message` (graph.py lines 481-502): run the
graph; on any exception mark the session for human intervention,
set the apology response and return it otherwise unchanged. -/
def process_message (A : RecruiterAgent) (st : AgentState) : AgentState :=
  match runFrom A recursionLimit .recepcion st with
  | .ok result => result
  | .error _ =>
    { st with needs_human_intervention := true,
              agent_response := apologyMessage }

/-- A fresh session, as built by the drivers (`example_usage.py`,
`test_microservice.py`): `greeting` stage, empty collections. -/
def initialState (sid : String) (cand : Option CandidateProfile) :
    AgentState :=
  { session_id := sid
    current_node := "recepcion_mensaje"
    messages := []
    last_message := ""
    agent_response := ""
    candidate := cand
    company_info := none
    job_offer := none
    intent := none
    conversation_stage := "greeting"
    killer_questions := []
    killer_questions_asked := []
    killer_answers := []
    evaluation := none
    conversation_ended := false
    needs_human_intervention := false }

/-- Delivery of one inbound candidate message, as the drivers do it:
append the candidate message to the history and set `last_message`
before invoking the graph. -/
def receiveCandidateMessage (st : AgentState) (m : String) : AgentState :=
  { st with
      messages := st.messages ++
        [{ sender := "candidate", content := m, platform := "linkedin" }],
      last_message := m }

/-- A whole conversation: the initial greeting invocation followed by
one `process_message` per inbound candidate message. -/
def runConversation (A : RecruiterAgent) (sid : String)
    (cand : Option CandidateProfile) (msgs : List String) : AgentState :=
  msgs.foldl (fun st m => process_message A (receiveCandidateMessage st m))
    (process_message A (initialState sid cand))

/-! ## Concrete instances used by witnesses and counterexamples -/

/-- A fixed language-model oracle instance. -/
def mockLLM : LLMService :=
  { generate_greeting := fun _ => "hello there"
    generate_response := fun _ _ => "tell me more"
    generate_killer_question := fun _ q => q.question
    extract_candidate_info := fun _ =>
      { years_of_experience := none, skills := [] } }

/-- A required question with weight 0.5 and a nonempty keyword list. -/
def qPython : KillerQuestion :=
  { question_id := "q1", question := "Tell me about your Python experience."
    expected_keywords := ["python", "docker"], weight := 1/2, required := true }

/-- A second required question with weight 0.5. -/
def qAws : KillerQuestion :=
  { question_id := "q2", question := "What cloud platforms have you used?"
    expected_keywords := ["aws"], weight := 1/2, required := true }

/-- A non-required question. -/
def qOptional : KillerQuestion :=
  { question_id := "q3", question := "Anything else to add?"
    expected_keywords := ["aws"], weight := 1/2, required := false }

/-- A required question whose expected-keyword list is empty. -/
def qEmpty1 : KillerQuestion :=
  { question_id := "q1", question := "First question?"
    expected_keywords := [], weight := 1/2, required := true }

/-- A second required question with no expected keywords. -/
def qEmpty2 : KillerQuestion :=
  { question_id := "q2", question := "Second question?"
    expected_keywords := [], weight := 1/2, required := true }

/-- Answers covering every expected keyword of `qPython` and `qAws`. -/
def goodAnswers : List (String × String) :=
  [("q1", "I use Python and Docker daily"), ("q2", "AWS expert")]

/-- Answers for the empty-keyword questions. -/
def emptyKwAnswers : List (String × String) :=
  [("q1", "great answer"), ("q2", "another great answer")]

/-- An agent for the `senior`-style job with two killer questions. -/
def mockAgent : RecruiterAgent :=
  { company_info := none, job_offer := none
    killer_questions := [qPython, qAws], llm := mockLLM }

/-- A session in the killer-questions stage in which both questions
were asked and the first already has a recorded answer. -/
def stAnswered : AgentState :=
  { initialState "s1" none with
      conversation_stage := "killer_questions"
      messages :=
        [{ sender := "candidate", content := "hi", platform := "linkedin" },
         { sender := "agent", content := "Q1?", platform := "linkedin" }]
      killer_questions := [qPython, qAws]
      killer_questions_asked := ["q1", "q2"]
      killer_answers := [("q1", "first answer")] }

/-- A session about to ask its second killer question. -/
def stAskNext : AgentState :=
  { initialState "s2" none with
      conversation_stage := "killer_questions"
      killer_questions := [qPython, qAws]
      killer_questions_asked := ["q1"]
      last_message := "i know python" }

/-- A session whose next inbound message asks about the company while
the agent has no company info loaded — the step raises an
`AttributeError` inside `generate_company_response`. -/
def stCompanyAsk : AgentState :=
  { initialState "s3" none with
      conversation_stage := "information_gathering"
      messages :=
        [{ sender := "candidate", content := "hi", platform := "linkedin" },
         { sender := "agent", content := "hello", platform := "linkedin" }]
      last_message := "tell me about the company" }

/-- An already-ended session. -/
def stClosed : AgentState :=
  { initialState "s4" none with
      conversation_stage := "closing"
      current_node := "finalizar_chat"
      conversation_ended := true
      agent_response := "Thanks for your time!"
      messages :=
        [{ sender := "agent", content := "closing", platform := "linkedin" }] }

/-- A session whose next inbound message is a farewell after one
answer has been recorded. -/
def stFarewell : AgentState :=
  { initialState "s5" none with
      conversation_stage := "information_gathering"
      messages :=
        [{ sender := "candidate", content := "hi", platform := "linkedin" },
         { sender := "agent", content := "hello", platform := "linkedin" }]
      killer_questions := [qPython, qAws]
      killer_questions_asked := ["q1"]
      killer_answers := [("q1", "i know python")]
      last_message := "goodbye" }

/-- A session identical to `stFarewell` but with no recorded answers. -/
def stFarewellNoAnswers : AgentState :=
  { stFarewell with killer_answers := [] }

/-! # Helper lemmas -/

lemma lookup_cons_eq_if (a k v : String) (l : List (String × String)) :
    List.lookup a ((k, v) :: l)
      = if a = k then some v else List.lookup a l := by
  simp only [List.lookup]
  cases h : a == k
  · rw [if_neg (by simpa using h)]
  · rw [if_pos (by simpa using h)]

lemma lookup_map_update_ne {d : List (String × String)} {k v k' : String}
    (h : k' ≠ k) :
    List.lookup k' (d.map (fun p => if p.1 == k then (k, v) else p))
      = List.lookup k' d := by
  induction d with
  | nil => rfl
  | cons p d ih =>
    obtain ⟨pk, pv⟩ := p
    simp only [List.map_cons]
    by_cases hp : pk = k
    · rw [show (if (pk, pv).1 == k then (k, v) else (pk, pv)) = (k, v) by
        simp [hp]]
      rw [lookup_cons_eq_if, lookup_cons_eq_if, if_neg h, if_neg (hp ▸ h), ih]
    · rw [show (if (pk, pv).1 == k then (k, v) else (pk, pv)) = (pk, pv) by
        simp [hp]]
      rw [lookup_cons_eq_if, lookup_cons_eq_if, ih]

lemma lookup_append_single_ne {d : List (String × String)} {k v k' : String}
    (h : k' ≠ k) :
    List.lookup k' (d ++ [(k, v)]) = List.lookup k' d := by
  induction d with
  | nil =>
    simp only [List.nil_append]
    rw [lookup_cons_eq_if, if_neg h]
  | cons p d ih =>
    obtain ⟨pk, pv⟩ := p
    simp only [List.cons_append]
    rw [lookup_cons_eq_if, lookup_cons_eq_if, ih]

lemma lookup_dictSet_ne {d : List (String × String)} {k v k' : String}
    (h : k' ≠ k) :
    List.lookup k' (dictSet d k v) = List.lookup k' d := by
  unfold dictSet
  split
  · exact lookup_map_update_ne h
  · exact lookup_append_single_ne h

/-- A `d[k] = v` write on a key that is currently unbound cannot
disturb the binding of a key that is bound. -/
lemma lookup_dictSet_preserve {d : List (String × String)}
    {k v qid a : String} (hq : List.lookup qid d = some a)
    (hk : List.lookup k d = none) :
    List.lookup qid (dictSet d k v) = some a := by
  have hne : qid ≠ k := by
    intro h
    rw [h, hk] at hq
    exact Option.noConfusion hq
  rw [lookup_dictSet_ne hne]
  exact hq

lemma find?_eq_head?_filter {α : Type} (p : α → Bool) (l : List α) :
    l.find? p = (l.filter p).head? := by
  induction l with
  | nil => rfl
  | cons a l ih =>
    cases h : p a
    · rw [List.find?_cons, List.filter_cons, h, if_neg (by simp)]
      exact ih
    · rw [List.find?_cons, List.filter_cons, h, if_pos rfl]
      rfl

/-! # C4 — zero total weight -/

lemma max_score_eq_sum_weights_mul (qs : List KillerQuestion) :
    max_score qs = (qs.map KillerQuestion.weight).sum * 100 := by
  unfold max_score
  induction qs with
  | nil => simp
  | cons q l ih =>
    simp only [List.map_cons, List.sum_cons, ih]
    ring

/-- C4: When the weights sum to zero (in particular for an empty
question list) the guarded branch of
`overall_score = total_score / max_score * 100 if max_score > 0 else 0`
is not taken and `evaluate_candidate` reports an overall score of 0;
no division by `max_score` is performed. -/
theorem evaluate_zero_total_weight (qs : List KillerQuestion)
    (ans : List (String × String))
    (h : (qs.map KillerQuestion.weight).sum = 0) :
    max_score qs = 0 ∧ (evaluate_candidate qs ans).overall_score = 0 := by
  have hmax : max_score qs = 0 := by
    rw [max_score_eq_sum_weights_mul, h, zero_mul]
  have hraw : overallRaw qs ans = 0 := by
    unfold overallRaw
    rw [hmax]
    simp
  refine ⟨hmax, ?_⟩
  simp [evaluate_candidate, hraw, round2]

/-- Witness for C4 at the empty question list. -/
theorem evaluate_zero_total_weight_witness :
    max_score [] = 0 ∧ (evaluate_candidate [] []).overall_score = 0 :=
  evaluate_zero_total_weight [] [] rfl

/-! # C2 — intent classification -/

/-- The result of Python `max(..., key=...)` folding is an element of
the scanned list. -/
lemma pickFold_mem :
    ∀ (xs : List (String × ℕ)) (x : String × ℕ),
      xs.foldl (fun b y => if b.2 < y.2 then y else b) x ∈ x :: xs := by
  intro xs
  induction xs with
  | nil => intro x; simp
  | cons y ys ih =>
    intro x
    simp only [List.foldl_cons]
    rcases List.mem_cons.mp (ih (if x.2 < y.2 then y else x)) with h | h
    · rw [h]
      split_ifs <;> simp
    · exact List.mem_cons_of_mem _ (List.mem_cons_of_mem _ h)

/-- The fold result has the maximal score of the scanned list. -/
lemma pickFold_le :
    ∀ (xs : List (String × ℕ)) (x q : String × ℕ), q ∈ x :: xs →
      q.2 ≤ (xs.foldl (fun b y => if b.2 < y.2 then y else b) x).2 := by
  intro xs
  induction xs with
  | nil =>
    intro x q hq
    rw [List.mem_singleton.mp hq]
    exact le_refl _
  | cons y ys ih =>
    intro x q hq
    simp only [List.foldl_cons]
    rcases List.mem_cons.mp hq with h | h
    · subst h
      refine le_trans ?_ (ih _ _ (List.mem_cons_self _ _))
      split_ifs with h'
      · exact Nat.le_of_lt h'
      · exact le_refl _
    · rcases List.mem_cons.mp h with h' | h'
      · subst h'
        refine le_trans ?_ (ih _ _ (List.mem_cons_self _ _))
        split_ifs with h'
        · exact le_refl _
        · exact Nat.le_of_not_lt h'
      · exact ih _ _ (List.mem_cons_of_mem _ h')

/-- Every element strictly before the fold result in the scanned list
has a strictly smaller score: Python `max` keeps the earliest entry on
ties. -/
lemma pickFold_first :
    ∀ (xs : List (String × ℕ)) (x : String × ℕ),
      ∃ l₁ l₂, x :: xs =
          l₁ ++ (xs.foldl (fun b y => if b.2 < y.2 then y else b) x) :: l₂ ∧
        ∀ q ∈ l₁,
          q.2 < (xs.foldl (fun b y => if b.2 < y.2 then y else b) x).2 := by
  intro xs
  induction xs with
  | nil => intro x; exact ⟨[], [], rfl, by simp⟩
  | cons y ys ih =>
    intro x
    simp only [List.foldl_cons]
    by_cases hxy : x.2 < y.2
    · rw [if_pos hxy]
      obtain ⟨l₁, l₂, hdec, hlt⟩ := ih y
      refine ⟨x :: l₁, l₂, ?_, ?_⟩
      · rw [List.cons_append, ← hdec]
      · intro q hq
        rcases List.mem_cons.mp hq with h | h
        · exact h ▸ lt_of_lt_of_le hxy (pickFold_le ys y y (List.mem_cons_self _ _))
        · exact hlt q h
    · rw [if_neg hxy]
      obtain ⟨l₁, l₂, hdec, hlt⟩ := ih x
      cases l₁ with
      | nil =>
        simp only [List.nil_append] at hdec
        refine ⟨[], y :: l₂, ?_, by simp⟩
        rw [List.nil_append, ← (List.cons.injEq ..).mp hdec |>.1]
        rw [(List.cons.injEq ..).mp hdec |>.2]
      | cons z l₁' =>
        simp only [List.cons_append] at hdec
        have hz : x = z := ((List.cons.injEq ..).mp hdec).1
        have hys : ys = l₁' ++ _ :: l₂ := ((List.cons.injEq ..).mp hdec).2
        have hx2 : x.2 = z.2 := by rw [hz]
        have hxF :
            x.2 < (ys.foldl (fun b y => if b.2 < y.2 then y else b) x).2 := by
          rw [hx2]
          exact hlt z (List.mem_cons_self _ _)
        refine ⟨x :: y :: l₁', l₂, ?_, ?_⟩
        · simp only [List.cons_append]
          conv_lhs => rw [hys]
        · intro q hq
          rcases List.mem_cons.mp hq with h | h
          · subst h
            exact hxF
          · rcases List.mem_cons.mp h with h' | h'
            · subst h'
              exact lt_of_le_of_lt (Nat.le_of_not_lt hxy) hxF
            · exact hlt q (List.mem_cons_of_mem _ h')

lemma find?_append_false {α : Type} {p : α → Bool} {l₁ : List α}
    (l₂ : List α) (hl : ∀ q ∈ l₁, p q = false) :
    (l₁ ++ l₂).find? p = l₂.find? p := by
  induction l₁ with
  | nil => rfl
  | cons a l ih =>
    rw [List.cons_append, List.find?_cons, hl a (List.mem_cons_self _ _)]
    exact ih fun q hq => hl q (List.mem_cons_of_mem _ hq)

lemma find?_of_decomp {α : Type} (p : α → Bool) (l₁ l₂ : List α) (F : α)
    (hfalse : ∀ q ∈ l₁, p q = false) (hpF : p F = true) :
    (l₁ ++ F :: l₂).find? p = some F := by
  rw [find?_append_false _ hfalse, List.find?_cons, hpF]

/-- Applying `find?` with the is-a-maximum predicate returns exactly the fold
result: the earliest entry with the maximal score. -/
lemma find?_max_eq_pickFold (x : String × ℕ) (xs : List (String × ℕ)) :
    (x :: xs).find?
        (fun q => (x :: xs).all (fun r => r.2 ≤ q.2)) =
      some (xs.foldl (fun b y => if b.2 < y.2 then y else b) x) := by
  obtain ⟨l₁, l₂, hdec, hlt⟩ := pickFold_first xs x
  have hmax := pickFold_le xs x
  rw [hdec]
  have hmemF :
      (xs.foldl (fun b y => if b.2 < y.2 then y else b) x) ∈
        l₁ ++ (xs.foldl (fun b y => if b.2 < y.2 then y else b) x) :: l₂ :=
    List.mem_append_right _ (List.mem_cons_self _ _)
  refine find?_of_decomp _ l₁ l₂ _ ?_ ?_
  · intro q hq
    refine List.all_eq_false.mpr ⟨_, hmemF, ?_⟩
    simpa using Nat.not_le.mpr (hlt q hq)
  · refine List.all_eq_true.mpr ?_
    intro r hr
    simpa using hmax r (hdec ▸ hr)

/-- C2 (amended): the default classifier returns the category with the
greatest number of keyword matches, declaration order
`{AskCompany, AskJob, AskTeam, AskLocation, ProvideInfo,
AnswerAffirmative, EndConversation}` breaking ties in favour of the
earliest-declared category, and `general_inquiry` when no category has
a positive score (`classifyIntentSpec` states that reading verbatim). -/
theorem classify_intent_eq_spec (message : String) :
    classify_intent message = classifyIntentSpec message := by
  simp only [classify_intent, classifyIntentSpec]
  cases h : (INTENT_KEYWORDS.map (fun p =>
      (p.1, p.2.countP (fun k => strContains (strLower message) k)))).filter
      (fun p => 0 < p.2) with
  | nil => rfl
  | cons x xs => rw [find?_max_eq_pickFold]

/-- C2 counterexample: `"bye company"` contains the EndConversation
keyword `"bye"`, so the claimed priority order (EndConversation first,
first category with ≥ 1 match wins) would return
`"end_conversation"`; the code returns `"ask_company"`, because it
maximizes the match count and breaks the 1-1 tie by dictionary
declaration order, in which `ask_company` comes first and
`end_conversation` last. -/
theorem classify_intent_priority_counterexample :
    strContains (strLower "bye company") "bye" = true ∧
    classify_intent "bye company" = "ask_company" ∧
    classify_intent "bye company" ≠ "end_conversation" := by
  refine ⟨by decide, by decide, by decide⟩

/-! # C1 — scenario A and suitability tiers -/

/-- A question whose nonempty keyword list is fully covered by its
recorded answer scores exactly `weight * 100`. -/
lemma questionScore_full_coverage (ans : List (String × String))
    (q : KillerQuestion) (a : String)
    (hlook : List.lookup q.question_id ans = some a)
    (hcov : ∀ k ∈ q.expected_keywords,
      strContains (strLower a) (strLower k) = true)
    (hne : q.expected_keywords ≠ []) :
    questionScore ans q = q.weight * 100 := by
  have hm : keywordMatches q (strLower a) = q.expected_keywords.length :=
    List.countP_eq_length.mpr hcov
  have hlen : 0 < q.expected_keywords.length := List.length_pos.mpr hne
  have hcast : ((q.expected_keywords.length : ℚ)) ≠ 0 :=
    Nat.cast_ne_zero.mpr (Nat.pos_iff_ne_zero.mp hlen)
  simp only [questionScore, hlook, hm]
  rw [if_pos hlen, div_self hcast, one_mul]

/-- C1 (amended): a job of exactly two required questions of weight
0.5 each, each with at least one expected keyword, whose answers cover
every expected keyword, evaluates to `overall_score = 100` and
`suitability = "high"`; and in general the suitability tier is
determined by the pre-rounding overall score with the thresholds
`≥ 70 → high`, `≥ 40 → medium`, otherwise `low`. -/
theorem scenarioA_and_suitability_tiers :
    (∀ (q1 q2 : KillerQuestion) (ans : List (String × String)),
      q1.required = true → q2.required = true →
      q1.weight = 1/2 → q2.weight = 1/2 →
      q1.expected_keywords ≠ [] → q2.expected_keywords ≠ [] →
      (∀ q ∈ [q1, q2], ∃ a, List.lookup q.question_id ans = some a ∧
        ∀ k ∈ q.expected_keywords,
          strContains (strLower a) (strLower k) = true) →
      (evaluate_candidate [q1, q2] ans).overall_score = 100 ∧
        (evaluate_candidate [q1, q2] ans).suitability = "high") ∧
    (∀ (qs : List KillerQuestion) (ans : List (String × String)),
      ((evaluate_candidate qs ans).suitability = "high" ↔
        70 ≤ overallRaw qs ans) ∧
      ((evaluate_candidate qs ans).suitability = "medium" ↔
        (40 ≤ overallRaw qs ans ∧ overallRaw qs ans < 70)) ∧
      ((evaluate_candidate qs ans).suitability = "low" ↔
        overallRaw qs ans < 40)) := by
  constructor
  · intro q1 q2 ans h1r h2r h1w h2w h1k h2k hcov
    obtain ⟨a1, ha1, hc1⟩ := hcov q1 (by simp)
    obtain ⟨a2, ha2, hc2⟩ := hcov q2 (by simp)
    have hs1 := questionScore_full_coverage ans q1 a1 ha1 hc1 h1k
    have hs2 := questionScore_full_coverage ans q2 a2 ha2 hc2 h2k
    have htot : total_score [q1, q2] ans = 100 := by
      unfold total_score
      simp only [List.map_cons, List.map_nil, List.sum_cons, List.sum_nil]
      rw [hs1, hs2, h1w, h2w]
      norm_num
    have hmax : max_score [q1, q2] = 100 := by
      unfold max_score
      simp only [List.map_cons, List.map_nil, List.sum_cons, List.sum_nil]
      rw [h1w, h2w]
      norm_num
    have hraw : overallRaw [q1, q2] ans = 100 := by
      unfold overallRaw
      rw [htot, hmax]
      norm_num
    have hround : round2 (100 : ℚ) = 100 := by with_unfolding_all decide
    constructor
    · simpa [evaluate_candidate, hraw] using hround
    · simp only [evaluate_candidate, hraw]
      rw [if_pos (by norm_num : (70:ℚ) ≤ 100)]
  · intro qs ans
    have hsuit : (evaluate_candidate qs ans).suitability =
        (if 70 ≤ overallRaw qs ans then "high"
         else if 40 ≤ overallRaw qs ans then "medium" else "low") := rfl
    rw [hsuit]
    split_ifs with h1 h2
    · exact ⟨iff_of_true rfl h1,
        iff_of_false (by decide) (fun h => absurd h.2 (not_lt.mpr h1)),
        iff_of_false (by decide) (not_lt.mpr (by linarith))⟩
    · exact ⟨iff_of_false (by decide) h1,
        iff_of_true rfl ⟨h2, not_le.mp h1⟩,
        iff_of_false (by decide) (not_lt.mpr h2)⟩
    · exact ⟨iff_of_false (by decide) h1,
        iff_of_false (by decide) (fun h => absurd h.1 h2),
        iff_of_true rfl (not_le.mp h2)⟩

/-- Witness for C1 (amended): the concrete two-question job
`[qPython, qAws]` with fully covering answers scores 100/high, and the
tier characterization evaluated at the empty job. -/
theorem scenarioA_witness :
    ((evaluate_candidate [qPython, qAws] goodAnswers).overall_score = 100 ∧
      (evaluate_candidate [qPython, qAws] goodAnswers).suitability = "high") ∧
    ((evaluate_candidate [] []).suitability = "low" ↔
      overallRaw [] [] < 40) :=
  ⟨scenarioA_and_suitability_tiers.1 qPython qAws goodAnswers rfl rfl rfl rfl
      (by decide) (by decide)
      (by
        intro q hq
        rcases List.mem_cons.mp hq with h | h
        · exact h ▸ ⟨"I use Python and Docker daily", rfl, by decide⟩
        · have hq2 : q = qAws := by simpa using h
          exact hq2 ▸ ⟨"AWS expert", rfl, by decide⟩),
    (scenarioA_and_suitability_tiers.2 [] []).2.2⟩

/-- C1 counterexample: a job with exactly two required questions of
weight 0.5 whose expected-keyword lists are empty.  Both questions are
answered and every expected keyword (vacuously) occurs in the answers,
yet `evaluate_candidate` returns `overall_score = 0` and
`suitability = "low"`, not 100/high: a keyword match count of 0 skips
the scoring branch even when the keyword list is empty. -/
theorem scenarioA_counterexample :
    qEmpty1.required = true ∧ qEmpty2.required = true ∧
    qEmpty1.weight = 1/2 ∧ qEmpty2.weight = 1/2 ∧
    List.lookup qEmpty1.question_id emptyKwAnswers = some "great answer" ∧
    List.lookup qEmpty2.question_id emptyKwAnswers
      = some "another great answer" ∧
    qEmpty1.expected_keywords = [] ∧ qEmpty2.expected_keywords = [] ∧
    (evaluate_candidate [qEmpty1, qEmpty2] emptyKwAnswers).overall_score
      = 0 ∧
    (evaluate_candidate [qEmpty1, qEmpty2] emptyKwAnswers).suitability
      = "low" := by
  with_unfolding_all decide

/-! # C10 — weak answers to required questions -/

/-- C10: an answered required question with zero keyword matches
yields the concern `"Weak answer to required question: <id>"` (a
different string from the missing-answer concern) and contributes 0
to the total score (`total_score` is the sum of the per-question
`questionScore` values); an answered non-required question with zero
matches produces no concern. -/
theorem weak_answer_required_concern :
    (∀ (qs : List KillerQuestion) (ans : List (String × String))
        (q : KillerQuestion) (a : String),
      q ∈ qs → q.required = true →
      List.lookup q.question_id ans = some a →
      keywordMatches q (strLower a) = 0 →
      ("Weak answer to required question: " ++ q.question_id) ∈
          (evaluate_candidate qs ans).concerns ∧
        questionScore ans q = 0) ∧
    (∀ (ans : List (String × String)) (q : KillerQuestion) (a : String),
      q.required = false →
      List.lookup q.question_id ans = some a →
      keywordMatches q (strLower a) = 0 →
      questionConcerns ans q = []) := by
  constructor
  · intro qs ans q a hmem hreq hlook hzero
    have hconc : questionConcerns ans q =
        ["Weak answer to required question: " ++ q.question_id] := by
      simp [questionConcerns, hlook, hzero, hreq]
    constructor
    · simp only [evaluate_candidate]
      apply List.mem_append_left
      rw [List.mem_flatten]
      exact ⟨questionConcerns ans q,
        List.mem_map_of_mem (questionConcerns ans) hmem,
        by rw [hconc]; exact List.mem_singleton_self _⟩
    · simp [questionScore, hlook, hzero]
  · intro ans q a hreq hlook hzero
    simp [questionConcerns, hlook, hzero, hreq]

/-- Witness for C10: `qPython` (required, keywords
`["python", "docker"]`) answered with unrelated text gets the weak
concern and a zero score; the non-required `qOptional` answered with
unrelated text produces no concern. -/
theorem weak_answer_required_concern_witness :
    (("Weak answer to required question: " ++ qPython.question_id) ∈
        (evaluate_candidate [qPython]
          [("q1", "nothing relevant")]).concerns ∧
      questionScore [("q1", "nothing relevant")] qPython = 0) ∧
    questionConcerns [("q3", "nothing")] qOptional = [] :=
  ⟨weak_answer_required_concern.1 [qPython] [("q1", "nothing relevant")]
      qPython "nothing relevant" (by simp) rfl rfl (by decide),
    weak_answer_required_concern.2 [("q3", "nothing")] qOptional "nothing"
      rfl rfl (by decide)⟩

/-! # Graph node lemmas -/

lemma receive_message_node_answers (A : RecruiterAgent) (st : AgentState) :
    (receive_message_node A st).killer_answers = st.killer_answers := by
  simp only [receive_message_node, appendAgentMessage]
  split_ifs <;> rfl

lemma receive_message_node_asked (A : RecruiterAgent) (st : AgentState) :
    (receive_message_node A st).killer_questions_asked
      = st.killer_questions_asked := by
  simp only [receive_message_node, appendAgentMessage]
  split_ifs <;> rfl

/-- Away from the very first greeting call, the reception node only
initializes absent context and stamps the node marker. -/
lemma receive_message_node_eq_of_not_first (A : RecruiterAgent)
    (st : AgentState)
    (h : ¬(st.conversation_stage = "greeting" ∧ st.messages = [])) :
    receive_message_node A st =
      { st with
          current_node := "recepcion_mensaje",
          company_info :=
            if st.company_info = none then A.company_info
            else st.company_info,
          job_offer :=
            if st.job_offer = none then A.job_offer else st.job_offer,
          killer_questions :=
            if st.killer_questions = [] then A.killer_questions
            else st.killer_questions } := by
  simp only [receive_message_node, appendAgentMessage]
  split_ifs <;> first | rfl | simp_all

lemma analyze_intent_node_eq (A : RecruiterAgent) (st : AgentState) :
    ∃ c, analyze_intent_node A st =
      { st with
          intent := some (classify_intent st.last_message),
          candidate := c,
          current_node := "analisis_intencion" } := by
  simp only [analyze_intent_node]
  cases h : st.candidate
  · exact ⟨st.candidate, by rw [h]⟩
  · split_ifs <;> exact ⟨_, rfl⟩

lemma gather_data_node_eq (A : RecruiterAgent) (st : AgentState) :
    gather_data_node A st =
      { st with
          agent_response := A.llm.generate_response st (some gatherContext),
          messages := st.messages ++
            [{ sender := "agent",
               content := A.llm.generate_response st (some gatherContext),
               platform := platformOf st }],
          current_node := "obtencion_datos" } := rfl

lemma company_response_node_ok (A : RecruiterAgent) {st st' : AgentState}
    (h : company_response_node A st = .ok st') :
    st'.killer_answers = st.killer_answers ∧
    st'.killer_questions_asked = st.killer_questions_asked ∧
    st'.killer_questions = st.killer_questions ∧
    st'.conversation_ended = st.conversation_ended ∧
    st'.evaluation = st.evaluation := by
  simp only [company_response_node, appendAgentMessage] at h
  split at h
  · exact absurd h (by simp)
  · cases h
    exact ⟨rfl, rfl, rfl, rfl, rfl⟩

lemma finalize_chat_node_eq (st : AgentState) :
    finalize_chat_node st =
      { st with
          agent_response := generate_evaluation_summary st,
          conversation_ended := true,
          conversation_stage := "closing",
          messages := st.messages ++
            [{ sender := "agent",
               content := generate_evaluation_summary st,
               platform := platformOf st }],
          current_node := "finalizar_chat" } := rfl

lemma storePendingAnswer_shape (st : AgentState) :
    ∃ d, storePendingAnswer st = { st with killer_answers := d } := by
  simp only [storePendingAnswer]
  split
  · split_ifs <;> exact ⟨_, rfl⟩
  · exact ⟨st.killer_answers, rfl⟩

lemma storePendingAnswer_lookup {st : AgentState} {qid a : String}
    (hq : List.lookup qid st.killer_answers = some a) :
    List.lookup qid (storePendingAnswer st).killer_answers = some a := by
  simp only [storePendingAnswer]
  split
  · split_ifs with hmsg hnone
    · exact lookup_dictSet_preserve hq hnone
    · exact hq
    · exact hq
  · exact hq

lemma storePendingAnswer_asked (st : AgentState) :
    (storePendingAnswer st).killer_questions_asked
      = st.killer_questions_asked := by
  obtain ⟨d, hd⟩ := storePendingAnswer_shape st
  rw [hd]

lemma final_evaluation_node_asked (st : AgentState) :
    (final_evaluation_node st).killer_questions_asked
      = st.killer_questions_asked := by
  simp only [final_evaluation_node]
  split_ifs
  · split
    · split_ifs <;> rfl
    · rfl
  · rfl

lemma final_evaluation_node_evaluation (st : AgentState) :
    (final_evaluation_node st).evaluation.isSome = true ∧
    (final_evaluation_node st).conversation_stage = "evaluation" := by
  simp only [final_evaluation_node]
  split_ifs
  · split
    · split_ifs <;> simp
    · simp
  · simp

lemma final_evaluation_node_lookup {st : AgentState} {qid a : String}
    (hq : List.lookup qid st.killer_answers = some a) :
    List.lookup qid (final_evaluation_node st).killer_answers = some a := by
  simp only [final_evaluation_node]
  split_ifs
  · split
    · split_ifs with hnone
      · exact lookup_dictSet_preserve hq hnone
      · exact hq
    · exact hq
  · exact hq

/-- In every branch `_route_after_intent` returns the input state with
at most the `killer_answers` dict modified. -/
lemma route_after_intent_shape (st : AgentState) :
    ∃ d, (route_after_intent st).1 = { st with killer_answers := d } := by
  simp only [route_after_intent]
  split_ifs <;>
    first
    | exact ⟨st.killer_answers, rfl⟩
    | (obtain ⟨d, hd⟩ := storePendingAnswer_shape st
       exact ⟨d, hd⟩)

lemma route_after_intent_lookup {st : AgentState} {qid a : String}
    (hq : List.lookup qid st.killer_answers = some a) :
    List.lookup qid (route_after_intent st).1.killer_answers = some a := by
  simp only [route_after_intent]
  split_ifs <;> first | exact hq | exact storePendingAnswer_lookup hq

/-! # C7 — next-question selection -/

/-- C7: whenever at least one question is not yet in the asked list
(`find?` returns the first such question, in the declaration order of
`session.questions` — never reordered), the killer-questions node asks
exactly that question, appends its id to the asked list at the moment
of selection, and leaves the answers map untouched (so the id is
marked asked before any answer for it exists). -/
theorem next_question_selection (A : RecruiterAgent) (st : AgentState)
    (qsel : KillerQuestion)
    (h : st.killer_questions.find?
        (fun q => !(st.killer_questions_asked.contains q.question_id))
      = some qsel) :
    (killer_questions_node A st).killer_questions_asked
        = st.killer_questions_asked ++ [qsel.question_id] ∧
    (killer_questions_node A st).killer_answers = st.killer_answers ∧
    (killer_questions_node A st).agent_response
        = A.llm.generate_killer_question st qsel ∧
    (killer_questions_node A st).conversation_stage
        = "killer_questions" := by
  rw [find?_eq_head?_filter] at h
  simp only [killer_questions_node, unansweredQuestions, appendAgentMessage]
  cases hfil : st.killer_questions.filter
      (fun q => !(st.killer_questions_asked.contains q.question_id)) with
  | nil => rw [hfil] at h; exact absurd h (by simp)
  | cons x rest =>
    rw [hfil] at h
    have hx : x = qsel := by simpa using h
    subst hx
    exact ⟨rfl, rfl, rfl, rfl⟩

/-- Witness for C7: with `["q1"]` already asked, the node selects
`qAws` (id `"q2"`), the first not-yet-asked question. -/
theorem next_question_selection_witness :
    (killer_questions_node mockAgent stAskNext).killer_questions_asked
        = stAskNext.killer_questions_asked ++ [qAws.question_id] ∧
    (killer_questions_node mockAgent stAskNext).killer_answers
        = stAskNext.killer_answers ∧
    (killer_questions_node mockAgent stAskNext).agent_response
        = mockAgent.llm.generate_killer_question stAskNext qAws ∧
    (killer_questions_node mockAgent stAskNext).conversation_stage
        = "killer_questions" :=
  next_question_selection mockAgent stAskNext qAws (by with_unfolding_all rfl)

/-! # C8 — exception fallback -/

/-- C8: whenever the graph run raises (an `Except.error`),
`process_message` returns normally with `needs_human_intervention`
set, the fixed apology as the response, and the stage and every
collection (asked list, answers map, messages) exactly as they were
before the step. -/
theorem exception_fallback (A : RecruiterAgent) (st : AgentState)
    (e : GraphError)
    (h : runFrom A recursionLimit .recepcion st = .error e) :
    process_message A st =
      { st with needs_human_intervention := true,
                agent_response := apologyMessage } ∧
    (process_message A st).conversation_stage = st.conversation_stage ∧
    (process_message A st).killer_questions_asked
      = st.killer_questions_asked ∧
    (process_message A st).killer_answers = st.killer_answers ∧
    (process_message A st).messages = st.messages ∧
    (process_message A st).needs_human_intervention = true ∧
    (process_message A st).agent_response = apologyMessage := by
  have hp : process_message A st =
      { st with needs_human_intervention := true,
                agent_response := apologyMessage } := by
    unfold process_message
    rw [h]
  exact ⟨hp, by rw [hp], by rw [hp], by rw [hp], by rw [hp], by rw [hp],
    by rw [hp]⟩

/-- Witness for C8: asking about the company while the agent has no
company info makes `generate_company_response` dereference `None`
(an `AttributeError`); the step is caught and the state is preserved
apart from the flag and the apology. -/
theorem exception_fallback_witness :
    process_message mockAgent stCompanyAsk =
      { stCompanyAsk with needs_human_intervention := true,
                          agent_response := apologyMessage } ∧
    (process_message mockAgent stCompanyAsk).conversation_stage
      = stCompanyAsk.conversation_stage ∧
    (process_message mockAgent stCompanyAsk).killer_questions_asked
      = stCompanyAsk.killer_questions_asked ∧
    (process_message mockAgent stCompanyAsk).killer_answers
      = stCompanyAsk.killer_answers ∧
    (process_message mockAgent stCompanyAsk).messages
      = stCompanyAsk.messages ∧
    (process_message mockAgent stCompanyAsk).needs_human_intervention
      = true ∧
    (process_message mockAgent stCompanyAsk).agent_response
      = apologyMessage :=
  exception_fallback mockAgent stCompanyAsk .attributeError
    (by with_unfolding_all decide)

/-- When `_route_after_intent` decides `killer_questions`, either some
question is still unasked, or nothing has been asked at all. -/
lemma route_after_intent_killer_pre {st st' : AgentState}
    (h : route_after_intent st = (st', "killer_questions")) :
    unansweredQuestions st' ≠ [] ∨ st'.killer_questions_asked = [] := by
  simp only [route_after_intent] at h
  split_ifs at h <;>
    first
    | exact absurd ((Prod.mk.injEq ..).mp h).2 (by decide)
    | (rename_i hrem
       rw [← ((Prod.mk.injEq ..).mp h).1]
       exact Or.inl hrem)
    | (rename_i hc
       rw [← ((Prod.mk.injEq ..).mp h).1]
       exact Or.inr hc.2)

lemma route_after_intent_end_some {st : AgentState}
    (hi : st.intent = some "end_conversation")
    (ha : st.killer_answers ≠ []) :
    route_after_intent st = (st, "evaluacion_final") := by
  unfold route_after_intent
  rw [if_pos hi, if_pos ha]

lemma route_after_intent_end_none {st : AgentState}
    (hi : st.intent = some "end_conversation")
    (ha : st.killer_answers = []) :
    route_after_intent st = (st, "finalizar") := by
  unfold route_after_intent
  rw [if_pos hi, if_neg (by simp [ha])]

/-! # One-step unfolding of the graph runner -/

lemma runFrom_recepcion_finalizar (A : RecruiterAgent) (st : AgentState)
    (fuel : ℕ)
    (h : route_after_reception (receive_message_node A st) = "finalizar") :
    runFrom A (fuel + 1) .recepcion st = .ok (receive_message_node A st) := by
  simp only [runFrom]
  rw [if_pos h]

lemma runFrom_recepcion_continue (A : RecruiterAgent) (st : AgentState)
    (fuel : ℕ)
    (h : route_after_reception (receive_message_node A st) ≠ "finalizar") :
    runFrom A (fuel + 1) .recepcion st
      = runFrom A fuel .analisis (receive_message_node A st) := by
  simp only [runFrom]
  rw [if_neg h]

lemma runFrom_analisis_step (A : RecruiterAgent) (st : AgentState)
    (fuel : ℕ) :
    runFrom A (fuel + 1) .analisis st =
      (let st' := analyze_intent_node A st
       let r := route_after_intent st'
       if r.2 = "killer_questions" then runFrom A fuel .killer r.1
       else if r.2 = "respuestas_compania" then
         runFrom A fuel .compania r.1
       else if r.2 = "obtencion_datos" then runFrom A fuel .datos r.1
       else if r.2 = "evaluacion_final" then runFrom A fuel .evalfinal r.1
       else runFrom A fuel .finalizar r.1) := rfl

lemma runFrom_evalfinal_step (A : RecruiterAgent) (st : AgentState)
    (fuel : ℕ) :
    runFrom A (fuel + 1) .evalfinal st
      = runFrom A fuel .finalizar (final_evaluation_node st) := rfl

lemma runFrom_finalizar_step (A : RecruiterAgent) (st : AgentState)
    (fuel : ℕ) :
    runFrom A (fuel + 1) .finalizar st = .ok (finalize_chat_node st) := rfl

/-! # C9 — already-ended sessions -/

/-- C9 (amended): for an ended session (past the initial greeting
state), the step returns without error and produces no new directive:
the reception node runs, the router goes straight to `END`, and the
returned session equals the input except that `current_node` is
stamped and absent context fields are lazily initialized.  In
particular `agent_response` keeps its previous value — there is no
"conversation already closed" directive in the code — and messages,
asked, answers, evaluation, stage and the ended flag are unchanged. -/
theorem ended_session_step (A : RecruiterAgent) (st : AgentState)
    (h1 : st.conversation_ended = true)
    (h2 : ¬(st.conversation_stage = "greeting" ∧ st.messages = [])) :
    process_message A st =
      { st with
          current_node := "recepcion_mensaje",
          company_info :=
            if st.company_info = none then A.company_info
            else st.company_info,
          job_offer :=
            if st.job_offer = none then A.job_offer else st.job_offer,
          killer_questions :=
            if st.killer_questions = [] then A.killer_questions
            else st.killer_questions } := by
  have hrecv := receive_message_node_eq_of_not_first A st h2
  have hroute : route_after_reception (receive_message_node A st)
      = "finalizar" := by
    rw [hrecv]
    unfold route_after_reception
    rw [if_pos (by simpa using h1)]
  unfold process_message
  rw [show recursionLimit = 24 + 1 from rfl,
    runFrom_recepcion_finalizar A st 24 hroute, hrecv]

/-- Witness for C9 (amended) at a concrete closed session. -/
theorem ended_session_step_witness :
    process_message mockAgent stClosed =
      { stClosed with
          current_node := "recepcion_mensaje",
          company_info :=
            if stClosed.company_info = none then mockAgent.company_info
            else stClosed.company_info,
          job_offer :=
            if stClosed.job_offer = none then mockAgent.job_offer
            else stClosed.job_offer,
          killer_questions :=
            if stClosed.killer_questions = [] then
              mockAgent.killer_questions
            else stClosed.killer_questions } :=
  ended_session_step mockAgent stClosed rfl (by decide)

/-- C9 counterexample: on a concrete ended session the step neither
returns a "conversation already closed" directive (the stale previous
response is returned unchanged — it does not even contain the word
"closed") nor leaves the session unmutated (`current_node` changes
from `"finalizar_chat"` to `"recepcion_mensaje"`). -/
theorem ended_session_counterexample :
    stClosed.conversation_ended = true ∧
    (process_message mockAgent stClosed).current_node
      ≠ stClosed.current_node ∧
    (process_message mockAgent stClosed).agent_response
      = "Thanks for your time!" ∧
    strContains (process_message mockAgent stClosed).agent_response
      "closed" = false := by
  with_unfolding_all decide

/-! # C6 — EndConversation routing -/

/-- C6: on a live session whose inbound message classifies as
`end_conversation` (and which actually reaches intent analysis): with
at least one recorded answer the step runs Evaluation and then Closing
— the returned session carries an evaluation result, the closing
stage and the ended flag; with no recorded answers the step goes
directly to Closing and the `evaluation` field is left exactly as it
was (absent stays absent). -/
theorem end_conversation_routing (A : RecruiterAgent) (st : AgentState)
    (h1 : st.conversation_ended = false)
    (h2 : ¬(st.conversation_stage = "greeting" ∧ st.messages = []))
    (h3 : ¬(st.conversation_stage = "information_gathering" ∧
        st.messages.length = 1))
    (h4 : classify_intent st.last_message = "end_conversation") :
    (st.killer_answers ≠ [] →
      (process_message A st).evaluation.isSome = true ∧
      (process_message A st).conversation_stage = "closing" ∧
      (process_message A st).conversation_ended = true) ∧
    (st.killer_answers = [] →
      (process_message A st).evaluation = st.evaluation ∧
      (process_message A st).conversation_stage = "closing" ∧
      (process_message A st).conversation_ended = true) := by
  have hrecv := receive_message_node_eq_of_not_first A st h2
  obtain ⟨c, hana⟩ := analyze_intent_node_eq A (receive_message_node A st)
  have hlast : (receive_message_node A st).last_message
      = st.last_message := by
    rw [hrecv]
  have hint : (analyze_intent_node A (receive_message_node A st)).intent
      = some "end_conversation" := by
    rw [hana]
    show some (classify_intent (receive_message_node A st).last_message)
      = some "end_conversation"
    rw [hlast, h4]
  have hansY :
      (analyze_intent_node A (receive_message_node A st)).killer_answers
        = st.killer_answers := by
    rw [hana, hrecv]
  have hevalY :
      (analyze_intent_node A (receive_message_node A st)).evaluation
        = st.evaluation := by
    rw [hana, hrecv]
  have hroute1 : route_after_reception (receive_message_node A st)
      = "analisis_intencion" := by
    rw [hrecv]
    unfold route_after_reception
    rw [if_neg (by simp [h1]), if_neg (by simpa using h3)]
  constructor
  · intro hne
    have hrend := route_after_intent_end_some hint (by rw [hansY]; exact hne)
    have hrun : runFrom A recursionLimit .recepcion st =
        .ok (finalize_chat_node (final_evaluation_node
          (analyze_intent_node A (receive_message_node A st)))) := by
      rw [show recursionLimit = 21 + 1 + 1 + 1 + 1 from rfl]
      rw [runFrom_recepcion_continue A st _ (by rw [hroute1]; decide)]
      rw [runFrom_analisis_step]
      simp only [hrend]
      rw [runFrom_evalfinal_step, runFrom_finalizar_step]
      rw [if_neg (by decide), if_neg (by decide), if_neg (by decide),
        if_pos trivial]
    have hp : process_message A st = finalize_chat_node
        (final_evaluation_node
          (analyze_intent_node A (receive_message_node A st))) := by
      unfold process_message
      rw [hrun]
    obtain ⟨hev, _⟩ := final_evaluation_node_evaluation
      (analyze_intent_node A (receive_message_node A st))
    refine ⟨?_, ?_, ?_⟩
    · rw [hp, finalize_chat_node_eq]
      simpa using hev
    · rw [hp, finalize_chat_node_eq]
    · rw [hp, finalize_chat_node_eq]
  · intro heq
    have hrend := route_after_intent_end_none hint (by rw [hansY]; exact heq)
    have hrun : runFrom A recursionLimit .recepcion st =
        .ok (finalize_chat_node
          (analyze_intent_node A (receive_message_node A st))) := by
      rw [show recursionLimit = 22 + 1 + 1 + 1 from rfl]
      rw [runFrom_recepcion_continue A st _ (by rw [hroute1]; decide)]
      rw [runFrom_analisis_step]
      simp only [hrend]
      rw [runFrom_finalizar_step]
      rw [if_neg (by decide), if_neg (by decide), if_neg (by decide),
        if_neg (by decide)]
    have hp : process_message A st = finalize_chat_node
        (analyze_intent_node A (receive_message_node A st)) := by
      unfold process_message
      rw [hrun]
    refine ⟨?_, ?_, ?_⟩
    · rw [hp, finalize_chat_node_eq]
      simpa using hevalY
    · rw [hp, finalize_chat_node_eq]
    · rw [hp, finalize_chat_node_eq]

/-- Witness for C6: the farewell message `"goodbye"` on a session with
one recorded answer produces an evaluation and closes; on the same
session with no answers the evaluation field stays `none`. -/
theorem end_conversation_routing_witness :
    (process_message mockAgent stFarewell).evaluation.isSome = true ∧
    (process_message mockAgent stFarewell).conversation_stage
      = "closing" ∧
    (process_message mockAgent stFarewell).conversation_ended = true ∧
    (process_message mockAgent stFarewellNoAnswers).evaluation
      = stFarewellNoAnswers.evaluation ∧
    (process_message mockAgent stFarewellNoAnswers).conversation_stage
      = "closing" := by
  obtain ⟨x1, x2, x3⟩ := (end_conversation_routing mockAgent stFarewell
    rfl (by decide) (by decide) (by decide)).1 (by decide)
  obtain ⟨y1, y2, _⟩ := (end_conversation_routing mockAgent
    stFarewellNoAnswers rfl (by decide) (by decide) (by decide)).2 rfl
  exact ⟨x1, x2, x3, y1, y2⟩

/-! # C5 — no question is asked twice -/

lemma unanswered_head_not_asked {st : AgentState} {q : KillerQuestion}
    {rest : List KillerQuestion}
    (h : unansweredQuestions st = q :: rest) :
    q.question_id ∉ st.killer_questions_asked := by
  have hm : q ∈ unansweredQuestions st := by
    rw [h]
    exact List.mem_cons_self _ _
  have hp := List.of_mem_filter hm
  simpa using hp

lemma killer_questions_node_asked_cases (A : RecruiterAgent)
    (st : AgentState) :
    (killer_questions_node A st).killer_questions_asked
      = st.killer_questions_asked ∨
    ∃ q rest, unansweredQuestions st = q :: rest ∧
      (killer_questions_node A st).killer_questions_asked
        = st.killer_questions_asked ++ [q.question_id] := by
  simp only [killer_questions_node, appendAgentMessage]
  cases h : unansweredQuestions st with
  | nil =>
    left
    split
    · rename_i heq
      exact absurd heq (by simp)
    · split <;> rfl
  | cons q rest =>
    right
    exact ⟨q, rest, rfl, rfl⟩

lemma runFrom_asked_nodup (A : RecruiterAgent) :
    ∀ (fuel : ℕ) (n : GNode) (st r : AgentState),
      runFrom A fuel n st = .ok r →
      st.killer_questions_asked.Nodup →
      r.killer_questions_asked.Nodup := by
  intro fuel
  induction fuel with
  | zero =>
    intro n st r h _
    simp [runFrom] at h
  | succ fuel ih =>
    intro n st r h hnd
    cases n with
    | recepcion =>
      simp only [runFrom] at h
      split_ifs at h
      · cases h
        rw [receive_message_node_asked]
        exact hnd
      · exact ih .analisis _ r h
          (by rw [receive_message_node_asked]; exact hnd)
    | analisis =>
      simp only [runFrom] at h
      have hasked :
          (route_after_intent (analyze_intent_node A st)).1.killer_questions_asked
            = st.killer_questions_asked := by
        obtain ⟨d, hd⟩ := route_after_intent_shape (analyze_intent_node A st)
        obtain ⟨c, hana⟩ := analyze_intent_node_eq A st
        rw [hd]
        show (analyze_intent_node A st).killer_questions_asked
          = st.killer_questions_asked
        rw [hana]
      split_ifs at h <;>
        exact ih _ _ r h (by rw [hasked]; exact hnd)
    | datos =>
      simp only [runFrom] at h
      exact ih .analisis _ r h (by rw [gather_data_node_eq]; exact hnd)
    | compania =>
      simp only [runFrom] at h
      cases hc : company_response_node A st with
      | error e =>
        rw [hc] at h
        exact absurd h (by simp)
      | ok st' =>
        rw [hc] at h
        obtain ⟨_, hask, _, _, _⟩ := company_response_node_ok A hc
        exact ih .analisis st' r h (by rw [hask]; exact hnd)
    | killer =>
      simp only [runFrom] at h
      have hnd' :
          (killer_questions_node A st).killer_questions_asked.Nodup := by
        rcases killer_questions_node_asked_cases A st with
          hsame | ⟨q, rest, hun, happ⟩
        · rw [hsame]
          exact hnd
        · rw [happ, List.nodup_append]
          refine ⟨hnd, List.nodup_singleton _, ?_⟩
          intro x hx hx'
          rw [List.mem_singleton] at hx'
          subst hx'
          exact unanswered_head_not_asked hun hx
      split_ifs at h <;> exact ih _ _ r h hnd'
    | evalfinal =>
      simp only [runFrom] at h
      exact ih .finalizar _ r h
        (by rw [final_evaluation_node_asked]; exact hnd)
    | finalizar =>
      simp only [runFrom] at h
      cases h
      rw [finalize_chat_node_eq]
      exact hnd

lemma process_message_asked_nodup (A : RecruiterAgent) (st : AgentState)
    (h : st.killer_questions_asked.Nodup) :
    (process_message A st).killer_questions_asked.Nodup := by
  unfold process_message
  cases hr : runFrom A recursionLimit .recepcion st with
  | ok r => exact runFrom_asked_nodup A recursionLimit .recepcion st r hr h
  | error e => exact h

/-- C5: the asked list of any session reachable by a sequence of
processed inbound messages has no duplicates — every question is asked
at most once, because the node only selects among questions whose id
is not yet in the asked list and appends the id at selection time. -/
theorem asked_no_duplicates (A : RecruiterAgent) (sid : String)
    (cand : Option CandidateProfile) (msgs : List String) :
    (runConversation A sid cand msgs).killer_questions_asked.Nodup := by
  unfold runConversation
  have hstep : ∀ (ms : List String) (st : AgentState),
      st.killer_questions_asked.Nodup →
      (ms.foldl (fun st m => process_message A (receiveCandidateMessage st m))
        st).killer_questions_asked.Nodup := by
    intro ms
    induction ms with
    | nil => intro st h; exact h
    | cons m ms ih =>
      intro st h
      exact ih _ (process_message_asked_nodup A _ h)
  exact hstep msgs _ (process_message_asked_nodup A _ List.nodup_nil)

/-! # C3 — first recorded answer wins -/

lemma killer_questions_node_lookup_of_pre (A : RecruiterAgent)
    (st : AgentState) (qid a : String)
    (hpre : unansweredQuestions st ≠ [] ∨ st.killer_questions_asked = [])
    (hq : List.lookup qid st.killer_answers = some a) :
    List.lookup qid (killer_questions_node A st).killer_answers
      = some a := by
  simp only [killer_questions_node, appendAgentMessage]
  cases h : unansweredQuestions st with
  | cons q rest => exact hq
  | nil =>
    rcases hpre with hne | hasked
    · exact absurd h hne
    · simp only [hasked, List.getLast?_nil]
      exact hq

lemma runFrom_answers_preserved (A : RecruiterAgent) (qid a : String) :
    ∀ (fuel : ℕ) (n : GNode) (st r : AgentState),
      runFrom A fuel n st = .ok r →
      (n = GNode.killer →
        unansweredQuestions st ≠ [] ∨ st.killer_questions_asked = []) →
      List.lookup qid st.killer_answers = some a →
      List.lookup qid r.killer_answers = some a := by
  intro fuel
  induction fuel with
  | zero =>
    intro n st r h _ _
    simp [runFrom] at h
  | succ fuel ih =>
    intro n st r h hpre hq
    cases n with
    | recepcion =>
      simp only [runFrom] at h
      split_ifs at h
      · cases h
        rw [receive_message_node_answers]
        exact hq
      · exact ih .analisis _ r h (by intro hk; exact absurd hk (by decide))
          (by rw [receive_message_node_answers]; exact hq)
    | analisis =>
      simp only [runFrom] at h
      have hq' : List.lookup qid
          (route_after_intent (analyze_intent_node A st)).1.killer_answers
            = some a := by
        apply route_after_intent_lookup
        obtain ⟨c, hana⟩ := analyze_intent_node_eq A st
        show List.lookup qid (analyze_intent_node A st).killer_answers
          = some a
        rw [hana]
        exact hq
      split_ifs at h with hk
      · refine ih .killer _ r h (fun _ => ?_) hq'
        exact route_after_intent_killer_pre (by rw [← hk])
      · exact ih .compania _ r h
          (by intro hk'; exact absurd hk' (by decide)) hq'
      · exact ih .datos _ r h
          (by intro hk'; exact absurd hk' (by decide)) hq'
      · exact ih .evalfinal _ r h
          (by intro hk'; exact absurd hk' (by decide)) hq'
      · exact ih .finalizar _ r h
          (by intro hk'; exact absurd hk' (by decide)) hq'
    | datos =>
      simp only [runFrom] at h
      exact ih .analisis _ r h (by intro hk; exact absurd hk (by decide))
        (by rw [gather_data_node_eq]; exact hq)
    | compania =>
      simp only [runFrom] at h
      cases hc : company_response_node A st with
      | error e =>
        rw [hc] at h
        exact absurd h (by simp)
      | ok st' =>
        rw [hc] at h
        obtain ⟨hans, _, _, _, _⟩ := company_response_node_ok A hc
        exact ih .analisis st' r h
          (by intro hk; exact absurd hk (by decide))
          (by rw [hans]; exact hq)
    | killer =>
      simp only [runFrom] at h
      have hq' := killer_questions_node_lookup_of_pre A st qid a
        (hpre rfl) hq
      split_ifs at h <;>
        exact ih _ _ r h (by intro hk; exact absurd hk (by decide)) hq'
    | evalfinal =>
      simp only [runFrom] at h
      exact ih .finalizar _ r h (by intro hk; exact absurd hk (by decide))
        (final_evaluation_node_lookup hq)
    | finalizar =>
      simp only [runFrom] at h
      cases h
      rw [finalize_chat_node_eq]
      exact hq

/-- C3: an answer already recorded for a question id is never changed
by processing a further inbound message: every store of an answer in
the step is guarded by `last_q_id not in killer_answers`, and the one
unguarded store (the killer node with no unasked question left) is
unreachable with a nonempty asked list, because the router only enters
that node when a question remains unasked or nothing was asked. -/
theorem first_answer_wins (A : RecruiterAgent) (st : AgentState)
    (m qid a : String)
    (h : List.lookup qid st.killer_answers = some a) :
    List.lookup qid
        (process_message A (receiveCandidateMessage st m)).killer_answers
      = some a := by
  unfold process_message
  cases hr : runFrom A recursionLimit .recepcion
      (receiveCandidateMessage st m) with
  | ok r =>
    exact runFrom_answers_preserved A qid a recursionLimit .recepcion _ r hr
      (by intro hk; exact absurd hk (by decide)) h
  | error e => exact h

/-- Witness for C3: on a session whose `"q1"` already has the answer
`"first answer"`, delivering a further message (which gets stored for
the still-unanswered `"q2"` and triggers evaluation) leaves
`killer_answers["q1"]` unchanged. -/
theorem first_answer_wins_witness :
    List.lookup "q1"
        (process_message mockAgent
          (receiveCandidateMessage stAnswered "random text xyz")).killer_answers
      = some "first answer" :=
  first_answer_wins mockAgent stAnswered "random text xyz" "q1"
    "first answer" rfl

end Recruiter
